import Mathlib

/-!
Verification of the nock interception engine against its specification.

The definitions below are shallow embeddings of the JavaScript sources:
  - lib/intercepted_request_router.js (request lifecycle: write, abort, routing)
  - lib/common.js (header folding, request stringification)
  - the Scope bookkeeping (pendingMocks, isDone)
Parts of the repository that are referenced by the claims but whose source
file is not present (lib/interceptor.js, lib/match_body.js) are modelled
from the specification text; each such definition carries a doc comment
starting with: Modelled from the spec.
-/

namespace Nock

/-! ## Request write handling (lib/intercepted_request_router.js, handleWrite) -/

/-- State of an intercepted ClientRequest that is relevant to handleWrite:
the finished flag (set by end), the aborted flag (set by abort), and the
accumulated request body buffers. -/
structure WriteState where
  finished : Bool
  aborted : Bool
  requestBodyBuffers : List String
  deriving DecidableEq, Repr

/-- Observable outcome of one handleWrite call: the returned boolean, the new
request state, the code of an error emitted via emitError (if any), whether
the caller-supplied callback was invoked, and whether a drain event was
scheduled. -/
structure WriteResult where
  ret : Bool
  st : WriteState
  errorEmitted : Option String
  callbackInvoked : Bool
  drainScheduled : Bool
  deriving DecidableEq, Repr

/-- Embedding of InterceptedRequestRouter.handleWrite.  The source checks
req.finished first (emitting a write-after-end error), then req.aborted
(silently returning false), then an empty or missing buffer (returning true
without touching the buffer list or the callback), and only in the remaining
case appends the chunk, invokes the callback and schedules a drain event. -/
def handleWrite (s : WriteState) (buffer : Option String) (hasCallback : Bool) :
    WriteResult :=
  if s.finished then
    { ret := true, st := s, errorEmitted := some "ERR_STREAM_WRITE_AFTER_END",
      callbackInvoked := false, drainScheduled := false }
  else if s.aborted then
    { ret := false, st := s, errorEmitted := none,
      callbackInvoked := false, drainScheduled := false }
  else
    match buffer with
    | none =>
      { ret := true, st := s, errorEmitted := none,
        callbackInvoked := false, drainScheduled := false }
    | some b =>
      if b.length = 0 then
        { ret := true, st := s, errorEmitted := none,
          callbackInvoked := false, drainScheduled := false }
      else
        { ret := false,
          st := { s with requestBodyBuffers := s.requestBodyBuffers ++ [b] },
          errorEmitted := none,
          callbackInvoked := hasCallback, drainScheduled := true }

/-! ## Scope bookkeeping (lib/common.js, Scope.prototype.pendingMocks / isDone) -/

/-- The per-interceptor fields consulted by Scope.prototype.pendingMocks:
the number of times the interceptor was consumed and its optional flag. -/
structure ScopeInterceptor where
  interceptionCounter : Nat
  optional : Bool
  deriving DecidableEq, Repr

/-- The Scope fields consulted by pendingMocks and isDone: the persist flag
and the keyedInterceptors map (a key together with the interceptors that are
still registered under that key). -/
structure Scope where
  persist : Bool
  keyedInterceptors : List (String × List ScopeInterceptor)
  deriving DecidableEq, Repr

/-- Embedding of Scope.prototype.pendingMocks: the keys of keyedInterceptors
whose interceptor list contains at least one interceptor that is pending,
where an interceptor is pending unless it is optional or it is persisted and
was already consumed at least once. -/
def Scope.pendingMocks (s : Scope) : List String :=
  (s.keyedInterceptors.filter fun kv =>
    kv.2.any fun ic =>
      !(s.persist && decide (0 < ic.interceptionCounter)) && !ic.optional).map
    Prod.fst

/-- Embedding of Scope.prototype.isDone.  The isOn parameter is the global
interception switch (globalIntercept.isOn()): when interception is off the
method returns true unconditionally, otherwise it checks that pendingMocks
is empty. -/
def Scope.isDone (isOn : Bool) (s : Scope) : Bool :=
  if !isOn then true
  else s.pendingMocks.length == 0

/-! ## Repeat counts (lib/interceptor.js is not in the sources) -/

/-- Modelled from the spec: lib/interceptor.js is not among the source files
(only its tests are).  An Interceptor carries a repeat counter, defaulting
to 1, which is decremented each time the interceptor answers a request. -/
structure TInterceptor where
  counter : Nat
  deriving DecidableEq, Repr

/-- Modelled from the spec: a freshly declared Interceptor has repeat count 1. -/
def TInterceptor.fresh : TInterceptor := { counter := 1 }

/-- Modelled from the spec: times(n) declares the repeat count; an argument
below 1 is tolerated and the Interceptor behaves as if the count were 1
(the permissive legacy default). -/
def TInterceptor.times (i : TInterceptor) (n : Int) : TInterceptor :=
  if n < 1 then { i with counter := 1 }
  else { i with counter := n.toNat }

/-- Outcome of one matching request against an interceptor. -/
inductive ROutcome where
  | success
  | noMatch
  deriving DecidableEq, Repr

/-- Modelled from the spec: a matching request succeeds while the repeat
counter is positive (consuming one slot) and fails with a no-match error
once the counter is exhausted. -/
def TInterceptor.serveOne (i : TInterceptor) : ROutcome × TInterceptor :=
  if i.counter = 0 then (ROutcome.noMatch, i)
  else (ROutcome.success, { i with counter := i.counter - 1 })

/-- Modelled from the spec: the outcomes of k consecutive matching requests
against the same interceptor. -/
def TInterceptor.serveMany : Nat → TInterceptor → List ROutcome
  | 0, _ => []
  | k + 1, i =>
    let r := i.serveOne
    r.1 :: TInterceptor.serveMany k r.2

/-! ## Abort handling (lib/intercepted_request_router.js, handleAbort) -/

/-- An event delivered on the request during abort handling: the abort
signal, or an error carrying an error code. -/
inductive AEv where
  | abort
  | error (code : String)
  deriving DecidableEq, Repr

/-- State of an intercepted request that is relevant to handleAbort: the
aborted and destroyed flags on the request, whether the fake socket is still
connecting, whether a response object has been attached to the request
(req.res), whether the socket was destroyed, and the ordered list of events
delivered on the request so far. -/
structure AbortState where
  aborted : Bool
  destroyed : Bool
  connecting : Bool
  hasRes : Bool
  socketDestroyed : Bool
  events : List AEv
  deriving DecidableEq, Repr

/-- Embedding of InterceptedRequestRouter.handleAbort.  A second abort on an
already-aborted request returns immediately.  Otherwise the aborted and
destroyed flags are set and an abort event is queued; then, only when the
socket is no longer connecting, a socket-hang-up ECONNRESET error is queued
after the abort event when no response had started (req.res unset), and the
socket is destroyed.  The two events are queued with process.nextTick in
this order, so they are delivered in this order. -/
def handleAbort (s : AbortState) : AbortState :=
  if s.aborted then s
  else
    let s1 : AbortState :=
      { s with aborted := true, destroyed := true, events := s.events ++ [AEv.abort] }
    if !s1.connecting then
      let s2 : AbortState :=
        if !s1.hasRes then
          { s1 with events := s1.events ++ [AEv.error "ECONNRESET"] }
        else s1
      { s2 with socketDestroyed := true }
    else s1

/-- Repeated abort calls. -/
def abortN : Nat → AbortState → AbortState
  | 0, s => s
  | k + 1, s => abortN k (handleAbort s)

/-! ## Request routing (lib/intercepted_request_router.js, startPlayback) -/

/-- The per-interceptor data consulted while routing one fixed incoming
request: whether the interceptor's request matcher succeeds on that request,
whether its consumption policy is exhausted, and its consumed count.  The
first two fields decompose Interceptor.prototype.match; that decomposition
is modelled from the spec, since lib/interceptor.js is not among the source
files. -/
structure RInterceptor where
  matcherOk : Bool
  exhausted : Bool
  interceptionCounter : Nat
  deriving DecidableEq, Repr

/-- Modelled from the spec: the interceptor match predicate used by the
router succeeds when the request matcher succeeds and the consumption policy
is not exhausted (lib/interceptor.js is not among the source files). -/
def RInterceptor.rmatch (i : RInterceptor) : Bool :=
  i.matcherOk && !i.exhausted

/-- Embedding of the interceptor selection in startPlayback: the index of
the first interceptor, in registration order, whose match succeeds
(interceptors.find in the source). -/
def findMatchIdx : List RInterceptor → Option Nat
  | [] => none
  | i :: rest =>
    if i.rmatch then some 0
    else (findMatchIdx rest).map (· + 1)

/-- Consumption of the matched interceptor: its consumed count is
incremented; every other interceptor is untouched.  The increment itself
(markConsumed) is modelled from the spec, since lib/interceptor.js and
lib/playback_interceptor.js are not among the source files. -/
def consumeAt : List RInterceptor → Nat → List RInterceptor
  | [], _ => []
  | i :: rest, 0 =>
    { i with interceptionCounter := i.interceptionCounter + 1 } :: rest
  | i :: rest, j + 1 => i :: consumeAt rest j

/-- One routing step: find the first matching interceptor and consume it;
when none matches, the interceptor list is left untouched. -/
def routeStep (l : List RInterceptor) : Option Nat × List RInterceptor :=
  match findMatchIdx l with
  | none => (none, l)
  | some j => (some j, consumeAt l j)

/-! ## Shared string utilities -/

/-- Lower-casing of a header field name or content type, as String
toLowerCase in JS (the names involved are ASCII). -/
def jsToLower (s : String) : String := String.mk (s.data.map Char.toLower)

/-- Substring test on character lists (JS String indexOf being at least 0). -/
def containsSubstring (needle hay : List Char) : Bool :=
  match hay with
  | [] => needle.isEmpty
  | _ :: rest => needle.isPrefixOf hay || containsSubstring needle rest

/-! ## Response header folding (common.js, addHeaderLine) -/

/-- A declared raw header value: a string, an array of strings, or a
function (whose name is used as a placeholder value while folding). -/
inductive HeaderInput where
  | str (s : String)
  | arr (vs : List String)
  | fn (name : String)
  deriving DecidableEq, Repr

/-- A folded header value as observed on the headers object: a plain string,
or an array of strings (set-cookie only). -/
inductive HeaderVal where
  | str (s : String)
  | arr (vs : List String)
  deriving DecidableEq, Repr

/-- The fixed set of singleton-only header names whose duplicates are
silently dropped (noDuplicatesHeaders in the source). -/
def noDuplicatesHeaders : List String :=
  ["age", "authorization", "content-length", "content-type", "etag",
   "expires", "from", "host", "if-modified-since", "if-unmodified-since",
   "last-modified", "location", "max-forwards", "proxy-authorization",
   "referer", "retry-after", "user-agent"]

/-- Property lookup on the headers object (JS object key access). -/
def jsGet (headers : List (String × HeaderVal)) (k : String) : Option HeaderVal :=
  (headers.find? fun kv => kv.1 == k).map Prod.snd

/-- Property assignment on the headers object: replaces the value of an
existing key in place, otherwise appends the new key. -/
def jsSet : List (String × HeaderVal) → String → HeaderVal →
    List (String × HeaderVal)
  | [], k, v => [(k, v)]
  | (k1, v1) :: rest, k, v =>
    if k1 == k then (k1, v) :: rest else (k1, v1) :: jsSet rest k v

/-- JS Array join with a separator. -/
def jsJoin (sep : String) : List String → String
  | [] => ""
  | [x] => x
  | x :: rest => x ++ sep ++ jsJoin sep rest

/-- Embedding of addHeaderLine: coerce the value to an array of strings,
lower-case the field name, then fold by name: set-cookie collects an array
and appends duplicates to it; names in noDuplicatesHeaders keep the first
value and silently drop later ones; every other name joins old and new
values with a comma separator (semicolon for cookie).  The two branches
marked unreachable cannot arise when folding starts from an empty object,
because set-cookie is only ever stored as an array and every other key only
as a string; on the first of them the JS code would throw. -/
def addHeaderLine (headers : List (String × HeaderVal)) (name : String)
    (value : HeaderInput) : List (String × HeaderVal) :=
  let values : List String :=
    match value with
    | .fn n => [n]
    | .arr vs => vs
    | .str s => [s]
  let key := jsToLower name
  if key == "set-cookie" then
    match jsGet headers key with
    | none => jsSet headers key (HeaderVal.arr values)
    | some (.arr old) => jsSet headers key (HeaderVal.arr (old ++ values))
    | some (.str _) => headers
  else if noDuplicatesHeaders.contains key then
    match jsGet headers key with
    | none =>
      match values.head? with
      | some v => jsSet headers key (HeaderVal.str v)
      | none => headers
    | some _ => headers
  else
    let allValues : List String :=
      match jsGet headers key with
      | some (.str s) => s :: values
      | some (.arr old) => old ++ values
      | none => values
    let separator := if key == "cookie" then "; " else ", "
    jsSet headers key (HeaderVal.str (jsJoin separator allValues))

/-- Embedding of headersArrayToObject: fold the raw name/value pairs into a
headers object with addHeaderLine, starting from an empty object. -/
def headersArrayToObject (rawHeaders : List (String × HeaderInput)) :
    List (String × HeaderVal) :=
  rawHeaders.foldl (fun acc kv => addHeaderLine acc kv.1 kv.2) []

/-! ## Body matching (lib/match_body.js is not in the sources) -/

mutual
/-- Modelled from the spec: a parsed JSON value (numbers as integers, which
covers the claim instances); lib/match_body.js is not among the source
files. -/
inductive JsonVal where
  | null
  | bool (b : Bool)
  | num (n : Int)
  | str (s : String)
  | arr (items : JsonArr)
  | obj (fields : JsonObj)
  deriving DecidableEq, Repr
/-- A JSON array of values. -/
inductive JsonArr where
  | nil
  | cons (head : JsonVal) (tail : JsonArr)
  deriving DecidableEq, Repr
/-- A JSON object, with fields in declaration order. -/
inductive JsonObj where
  | nil
  | cons (key : String) (val : JsonVal) (tail : JsonObj)
  deriving DecidableEq, Repr
end

mutual
/-- Modelled from the spec: deep, type-strict structural equality of JSON
values: values of different JSON types (such as a number and the string
spelling the same digits) never compare equal. -/
def deepEq : JsonVal → JsonVal → Bool
  | .null, .null => true
  | .bool a, .bool b => a == b
  | .num a, .num b => a == b
  | .str a, .str b => a == b
  | .arr xs, .arr ys => deepEqArr xs ys
  | .obj xs, .obj ys => deepEqObj xs ys
  | _, _ => false
/-- Deep equality on JSON arrays, elementwise in order. -/
def deepEqArr : JsonArr → JsonArr → Bool
  | .nil, .nil => true
  | .cons x xs, .cons y ys => deepEq x y && deepEqArr xs ys
  | _, _ => false
/-- Deep equality on JSON objects, fieldwise in declaration order. -/
def deepEqObj : JsonObj → JsonObj → Bool
  | .nil, .nil => true
  | .cons k1 v1 xs, .cons k2 v2 ys => k1 == k2 && deepEq v1 v2 && deepEqObj xs ys
  | _, _ => false
end

/-- Modelled from the spec: when the expected body matcher is an object or
array, the actual request body is JSON-parsed and the two structures are
compared deeply and type-strictly.  The actualParsed parameter is the parse
result of the actual body, none when the body is not valid JSON, which is a
non-match rather than an error.  lib/match_body.js is not among the source
files. -/
def matchBodyJson (expected : JsonVal) (actualParsed : Option JsonVal) : Bool :=
  match actualParsed with
  | none => false
  | some a => deepEq expected a

/-- Modelled from the spec: removal of line-ending characters before
comparing string bodies, so that line-ending differences are ignored. -/
def stripLineEndings (s : String) : String :=
  String.mk (s.data.filter fun c => !(c == '\r' || c == '\n'))

/-- Modelled from the spec: a content type is a multipart type when it
contains the substring multipart. -/
def isMultipart (contentType : String) : Bool :=
  containsSubstring "multipart".data contentType.data

/-- Modelled from the spec: when the expected body matcher is a string,
matching is exact equality, except that line-ending differences are
ignored; for a multipart content type the comparison is byte-exact.
lib/match_body.js is not among the source files. -/
def matchBodyString (contentType spec actual : String) : Bool :=
  if isMultipart contentType then spec == actual
  else stripLineEndings spec == stripLineEndings actual

/-! ## Request stringification and the no-match error
(lib/common.js stringifyRequest; lib/intercepted_request_router.js
startPlayback) -/

/-- A JS port value as found on the request options: a number or a string. -/
inductive JsPort where
  | num (n : Nat)
  | str (s : String)
  deriving DecidableEq, Repr

/-- Falsiness of a present port value (0 and the empty string are falsy;
an absent port is represented by none at the use site). -/
def JsPort.falsy : JsPort → Bool
  | .num n => n == 0
  | .str s => s == ""

/-- Loose equality of a port value against a default port, as the JS
comparison with a numeric string behaves: a number compares by value, a
string by its text. -/
def JsPort.looseEq (p : JsPort) (n : Nat) (s : String) : Bool :=
  match p with
  | .num m => m == n
  | .str t => t == s

/-- The request options fields consulted by stringifyRequest and by the
no-match error construction in startPlayback.  Header values are restricted
to strings in this model. -/
structure ReqOptions where
  method : Option String
  proto : String
  hostname : String
  port : Option JsPort
  path : Option String
  headers : List (String × String)
  deriving DecidableEq, Repr

/-- A lower-case hexadecimal digit. -/
def hexDigit (n : Nat) : Char :=
  if n < 10 then Char.ofNat (48 + n) else Char.ofNat (87 + n)

/-- JSON escaping of one character, as JSON.stringify performs it: the
quote, the backslash and control characters are escaped, every other
character is copied unchanged. -/
def jsonEscapeChar (c : Char) : String :=
  if c = '"' then "\\\""
  else if c = '\\' then "\\\\"
  else if c = '\n' then "\\n"
  else if c = '\r' then "\\r"
  else if c = '\t' then "\\t"
  else if c = '\x08' then "\\b"
  else if c = '\x0c' then "\\f"
  else if c.val < 32 then
    "\\u00" ++ String.mk [hexDigit (c.val.toNat / 16), hexDigit (c.val.toNat % 16)]
  else String.mk [c]

/-- JSON escaping of a string. -/
def jsonEscape (s : String) : String := String.join (s.data.map jsonEscapeChar)

/-- A JSON string literal: the escaped text between double quotes. -/
def jsonQuote (s : String) : String := "\"" ++ jsonEscape s ++ "\""

/-- Rendering of the headers object as JSON.stringify with a two-space
indent renders a nested object: an empty object is a brace pair, otherwise
one key per line indented four spaces with the closing brace indented two. -/
def headersJson (hs : List (String × String)) : String :=
  if hs.isEmpty then "\x7b\x7d"
  else
    "\x7b\n" ++
      String.intercalate ",\n"
        (hs.map fun kv => "    " ++ jsonQuote kv.1 ++ ": " ++ jsonQuote kv.2) ++
      "\n  \x7d"

/-- The method field of the logged request: the options method, defaulting
to GET when absent or empty (JS falsiness). -/
def methodOf (options : ReqOptions) : String :=
  match options.method with
  | none => "GET"
  | some m => if m == "" then "GET" else m

/-- The port fragment of the logged URL, per stringifyRequest: an absent or
falsy port defaults by protocol; the default port of the protocol is
elided; any other port is rendered with a leading colon. -/
def portFragment (options : ReqOptions) : String :=
  let p : JsPort :=
    match options.port with
    | none =>
      if options.proto == "https" then JsPort.str "443" else JsPort.str "80"
    | some p0 =>
      if p0.falsy then
        if options.proto == "https" then JsPort.str "443" else JsPort.str "80"
      else p0
  let elided : Bool :=
    (options.proto == "https" && p.looseEq 443 "443") ||
      (options.proto == "http" && p.looseEq 80 "80")
  if elided then ""
  else ":" ++ (match p with | .num n => toString n | .str s => s)

/-- The url field of the logged request, per stringifyRequest: protocol,
hostname, port fragment and path (an absent or empty path renders as
nothing). -/
def urlOf (options : ReqOptions) : String :=
  options.proto ++ "://" ++ options.hostname ++ portFragment options ++
    (match options.path with
     | none => ""
     | some p => if p == "" then "" else p)

/-- Embedding of stringifyRequest: JSON.stringify of the log object (method,
url, headers, and the body only when it is a non-empty string) with
two-space indentation. -/
def stringifyRequest (options : ReqOptions) (body : String) : String :=
  "\x7b\n  \"method\": " ++ jsonQuote (methodOf options) ++
    ",\n  \"url\": " ++ jsonQuote (urlOf options) ++
    ",\n  \"headers\": " ++ headersJson options.headers ++
    (if body == "" then "" else ",\n  \"body\": " ++ jsonQuote body) ++
    "\n\x7d"

/-- The error object built by startPlayback when no interceptor matched and
pass-through is not allowed: a message naming the attempted request, with
statusCode and status both set to 404. -/
structure NockError where
  message : String
  statusCode : Nat
  status : Nat
  deriving DecidableEq, Repr

/-- The no-match error of startPlayback. -/
def noMatchError (options : ReqOptions) (body : String) : NockError :=
  { message := "Nock: No match for request " ++ stringifyRequest options body,
    statusCode := 404, status := 404 }

/-- The routing decision of startPlayback after the interceptor search: a
matched interceptor plays back; otherwise, when some interceptor allows
unmocked traffic for the host, the request passes through to the real
transport; otherwise the no-match error is emitted on the request. -/
inductive RouteOutcome where
  | playback
  | passthrough
  | nomatch (e : NockError)
  deriving DecidableEq, Repr

/-- The no-match arm of startPlayback. -/
def routeDecision (matched allowUnmocked : Bool) (options : ReqOptions)
    (body : String) : RouteOutcome :=
  if matched then RouteOutcome.playback
  else if allowUnmocked then RouteOutcome.passthrough
  else RouteOutcome.nomatch (noMatchError options body)

/-! ## Theorems -/

theorem serveMany_counter (c k : Nat) :
    TInterceptor.serveMany (c + 1 + k) { counter := c } =
      List.replicate c ROutcome.success ++
        List.replicate (k + 1) ROutcome.noMatch := by
  induction c generalizing k with
  | zero =>
    simp only [List.replicate, List.nil_append]
    induction k with
    | zero => rfl
    | succ k ih =>
      have h : (0 : Nat) + 1 + (k + 1) = (0 + 1 + k) + 1 := by omega
      rw [h]
      simp only [TInterceptor.serveMany, TInterceptor.serveOne] at ih ⊢
      simp only [List.replicate] at ih ⊢
      simp at ih ⊢
      exact ih
  | succ c ih =>
    have h : (c + 1) + 1 + k = (c + 1 + k) + 1 := by omega
    rw [h]
    simp only [TInterceptor.serveMany, TInterceptor.serveOne]
    simp only [Nat.succ_ne_zero, if_false, List.replicate]
    simp only [Nat.add_sub_cancel, List.cons_append]
    exact congrArg _ (ih k)

/-- C1: an Interceptor declared with times(N) answers exactly
max(N, 1) consecutive matching requests with the declared response, and the
next matching request fails with a no-match error; an argument N below 1 is
treated as if it were 1. -/
theorem c1_repeat_count (N : Int) :
    TInterceptor.serveMany ((if 1 ≤ N then N.toNat else 1) + 1)
        (TInterceptor.fresh.times N) =
      List.replicate (if 1 ≤ N then N.toNat else 1) ROutcome.success ++
        [ROutcome.noMatch] := by
  have h : TInterceptor.fresh.times N =
      { counter := if 1 ≤ N then N.toNat else 1 } := by
    simp only [TInterceptor.times, TInterceptor.fresh]
    by_cases h : N < 1
    · simp [h, show ¬(1 ≤ N) by omega]
    · simp [h, show (1 : Int) ≤ N by omega]
  rw [h]
  simpa using serveMany_counter (if 1 ≤ N then N.toNat else 1) 0

/-- C8 counterexample: a zero-length write on a live (not ended, not aborted)
request returns true and leaves the body buffer untouched, but does NOT
invoke the caller-supplied callback, contradicting the claim that the
callback is still invoked. -/
theorem c8_counterexample :
    (handleWrite { finished := false, aborted := false, requestBodyBuffers := [] }
        (some "") true).callbackInvoked = false ∧
    (handleWrite { finished := false, aborted := false, requestBodyBuffers := [] }
        (some "") true).st.requestBodyBuffers = [] := by
  decide

/-- C8 (amended): a write issued before end() on a not-yet-aborted request
with a zero-length (empty or missing) payload is a no-op on the body buffer,
returns true, emits no error, and does not invoke the caller callback. -/
theorem c8_empty_write_noop (s : WriteState) (buffer : Option String)
    (hasCallback : Bool) (hfin : s.finished = false) (hab : s.aborted = false)
    (hempty : buffer = none ∨ ∃ b, buffer = some b ∧ b.length = 0) :
    handleWrite s buffer hasCallback =
      { ret := true, st := s, errorEmitted := none,
        callbackInvoked := false, drainScheduled := false } := by
  rcases hempty with h | ⟨b, hb, hlen⟩
  · simp [handleWrite, hfin, hab, h]
  · simp [handleWrite, hfin, hab, hb, hlen]

/-- C8 witness: the amended statement at a concrete input. -/
theorem c8_empty_write_noop_witness :
    handleWrite { finished := false, aborted := false, requestBodyBuffers := ["a"] }
        (some "") true =
      { ret := true,
        st := { finished := false, aborted := false, requestBodyBuffers := ["a"] },
        errorEmitted := none, callbackInvoked := false, drainScheduled := false } :=
  c8_empty_write_noop _ _ _ rfl rfl (Or.inr ⟨"", rfl, rfl⟩)

/-- C9 counterexample: a write on a request that was both ended and aborted
takes the write-after-end path: it returns true and emits the
write-after-end error, contradicting the claim that a write on any aborted
request returns false and emits no error (handleWrite checks the finished
flag before the aborted flag). -/
theorem c9_counterexample :
    (handleWrite { finished := true, aborted := true, requestBodyBuffers := [] }
        (some "foo") true).ret = true ∧
    (handleWrite { finished := true, aborted := true, requestBodyBuffers := [] }
        (some "foo") true).errorEmitted = some "ERR_STREAM_WRITE_AFTER_END" := by
  decide

/-- C9 (amended): on a request that has been aborted but not ended, a
subsequent write is silently ignored: it returns false, appends nothing to
the body buffer, emits no error event, never invokes the caller callback and
schedules no drain event. -/
theorem c9_write_after_abort (s : WriteState) (buffer : Option String)
    (hasCallback : Bool) (hab : s.aborted = true) (hfin : s.finished = false) :
    handleWrite s buffer hasCallback =
      { ret := false, st := s, errorEmitted := none,
        callbackInvoked := false, drainScheduled := false } := by
  simp [handleWrite, hab, hfin]

/-- C9 witness: the amended statement at a concrete input. -/
theorem c9_write_after_abort_witness :
    handleWrite { finished := false, aborted := true, requestBodyBuffers := [] }
        (some "foo") true =
      { ret := false,
        st := { finished := false, aborted := true, requestBodyBuffers := [] },
        errorEmitted := none, callbackInvoked := false, drainScheduled := false } :=
  c9_write_after_abort _ _ _ rfl rfl

theorem handleAbort_of_aborted (t : AbortState) (h : t.aborted = true) :
    handleAbort t = t := by
  simp [handleAbort, h]

theorem handleAbort_aborted_after (s : AbortState) :
    (handleAbort s).aborted = true := by
  by_cases h : s.aborted <;> by_cases hc : s.connecting <;> by_cases hr : s.hasRes <;>
    simp [handleAbort, h, hc, hr]

theorem abortN_of_aborted (k : Nat) (t : AbortState) (h : t.aborted = true) :
    abortN k t = t := by
  induction k with
  | zero => rfl
  | succ k ih => simp [abortN, handleAbort_of_aborted t h, ih]

/-- C3 counterexample: a request aborted three times while the socket is
still connecting and before any response emits exactly one abort event and
NO connection-reset error, contradicting the claim that every abort with no
response started raises exactly one ECONNRESET error. -/
theorem c3_counterexample :
    (abortN 3
        { aborted := false, destroyed := false, connecting := true,
          hasRes := false, socketDestroyed := false, events := [] }).events =
      [AEv.abort] := by
  decide

/-- C3 (amended): however many times abort is called (at least once) on a
not-yet-aborted request, the result equals a single abort call, which
appends exactly one abort event; when no response had started AND the socket
had already finished connecting, exactly one ECONNRESET error is appended
after the abort event; otherwise (still connecting, or response already
delivered) no error is appended. -/
theorem c3_abort_events (s : AbortState) (k : Nat) (hs : s.aborted = false)
    (hk : 1 ≤ k) :
    abortN k s = handleAbort s ∧
    (handleAbort s).events =
      s.events ++ [AEv.abort] ++
        (if s.connecting = false ∧ s.hasRes = false then [AEv.error "ECONNRESET"]
         else []) := by
  constructor
  · obtain ⟨m, rfl⟩ : ∃ m, k = m + 1 := ⟨k - 1, by omega⟩
    show abortN m (handleAbort s) = handleAbort s
    exact abortN_of_aborted m _ (handleAbort_aborted_after s)
  · by_cases hc : s.connecting <;> by_cases hr : s.hasRes <;>
      simp [handleAbort, hs, hc, hr]

/-- C3 witness: the amended statement at a concrete input (two abort calls,
connected socket, no response started). -/
theorem c3_abort_events_witness :
    abortN 2
        { aborted := false, destroyed := false, connecting := false,
          hasRes := false, socketDestroyed := false, events := [] } =
      handleAbort
        { aborted := false, destroyed := false, connecting := false,
          hasRes := false, socketDestroyed := false, events := [] } ∧
    (handleAbort
        { aborted := false, destroyed := false, connecting := false,
          hasRes := false, socketDestroyed := false, events := [] }).events =
      [AEv.abort, AEv.error "ECONNRESET"] := by
  have h := c3_abort_events
    { aborted := false, destroyed := false, connecting := false,
      hasRes := false, socketDestroyed := false, events := [] } 2 rfl (by omega)
  exact ⟨h.1, by simpa using h.2⟩

theorem consumeAt_getElem_other (l : List RInterceptor) (j k : Nat)
    (hkj : k ≠ j) : (consumeAt l j)[k]? = l[k]? := by
  induction l generalizing j k with
  | nil => simp [consumeAt]
  | cons i rest ih =>
    cases j with
    | zero =>
      cases k with
      | zero => exact absurd rfl hkj
      | succ k => simp [consumeAt]
    | succ j =>
      cases k with
      | zero => simp [consumeAt]
      | succ k => simpa [consumeAt] using ih j k (by omega)

theorem consumeAt_getElem_self (l : List RInterceptor) (j : Nat) :
    (consumeAt l j)[j]? =
      l[j]?.map
        (fun i => { i with interceptionCounter := i.interceptionCounter + 1 }) := by
  induction l generalizing j with
  | nil => simp [consumeAt]
  | cons i rest ih =>
    cases j with
    | zero => simp [consumeAt]
    | succ j => simpa [consumeAt] using ih j

theorem findMatchIdx_spec (l : List RInterceptor) (j : Nat)
    (h : findMatchIdx l = some j) :
    l[j]?.map RInterceptor.rmatch = some true ∧
    ∀ k, k < j → l[k]?.map RInterceptor.rmatch = some false := by
  induction l generalizing j with
  | nil => simp [findMatchIdx] at h
  | cons i rest ih =>
    cases hm : i.rmatch with
    | true =>
      simp [findMatchIdx, hm] at h
      subst h
      exact ⟨by simp [hm], fun k hk => absurd hk (by omega)⟩
    | false =>
      simp [findMatchIdx, hm] at h
      obtain ⟨j1, hj1, hj⟩ := h
      subst hj
      refine ⟨by simpa using (ih j1 hj1).1, fun k hk => ?_⟩
      cases k with
      | zero => simp [hm]
      | succ k => simpa using (ih j1 hj1).2 k (by omega)

/-- C2: when the router finds a matching interceptor at index j, that
interceptor is the first one, in registration order, whose matcher succeeds
and whose consumption policy is not exhausted (every earlier one fails the
match); exactly that interceptor's consumed count is incremented and every
other interceptor is left unchanged, so later-registered interceptors are
never considered or consumed. -/
theorem c2_route_first_match (l : List RInterceptor) (j : Nat)
    (h : findMatchIdx l = some j) :
    routeStep l = (some j, consumeAt l j) ∧
    l[j]?.map RInterceptor.rmatch = some true ∧
    (∀ k, k < j → l[k]?.map RInterceptor.rmatch = some false) ∧
    (consumeAt l j)[j]? =
      l[j]?.map
        (fun i => { i with interceptionCounter := i.interceptionCounter + 1 }) ∧
    ∀ k, k ≠ j → (consumeAt l j)[k]? = l[k]? :=
  ⟨by simp [routeStep, h], (findMatchIdx_spec l j h).1, (findMatchIdx_spec l j h).2,
    consumeAt_getElem_self l j, fun k hk => consumeAt_getElem_other l j k hk⟩

/-- C2 witness: a three-interceptor scope where the second is the first
match; routing consumes exactly the second and leaves the others untouched. -/
theorem c2_route_first_match_witness :
    routeStep
        [{ matcherOk := false, exhausted := false, interceptionCounter := 0 },
         { matcherOk := true, exhausted := false, interceptionCounter := 0 },
         { matcherOk := true, exhausted := false, interceptionCounter := 5 }] =
      (some 1,
        consumeAt
          [{ matcherOk := false, exhausted := false, interceptionCounter := 0 },
           { matcherOk := true, exhausted := false, interceptionCounter := 0 },
           { matcherOk := true, exhausted := false, interceptionCounter := 5 }] 1) ∧
    (consumeAt
        [{ matcherOk := false, exhausted := false, interceptionCounter := 0 },
         { matcherOk := true, exhausted := false, interceptionCounter := 0 },
         { matcherOk := true, exhausted := false, interceptionCounter := 5 }] 1)[2]? =
      some { matcherOk := true, exhausted := false, interceptionCounter := 5 } := by
  have h := c2_route_first_match
    [{ matcherOk := false, exhausted := false, interceptionCounter := 0 },
     { matcherOk := true, exhausted := false, interceptionCounter := 0 },
     { matcherOk := true, exhausted := false, interceptionCounter := 5 }] 1 (by decide)
  exact ⟨h.1, by simpa using h.2.2.2.2 2 (by omega)⟩

/-- C5: when the expected body matcher is an object, the comparison is deep
and type-strict: an expected numeric field does not match the string
spelling the same digits, while an identical structure does match; and an
actual body that is not valid JSON is a non-match rather than an error. -/
theorem c5_json_body (e : JsonVal) :
    matchBodyJson e none = false ∧
    matchBodyJson (JsonVal.obj (JsonObj.cons "n" (JsonVal.num 1) JsonObj.nil))
        (some (JsonVal.obj (JsonObj.cons "n" (JsonVal.str "1") JsonObj.nil))) =
      false ∧
    matchBodyJson (JsonVal.obj (JsonObj.cons "n" (JsonVal.num 1) JsonObj.nil))
        (some (JsonVal.obj (JsonObj.cons "n" (JsonVal.num 1) JsonObj.nil))) =
      true :=
  ⟨rfl, by decide, by decide⟩

theorem stripLineEndings_append (a b : String) :
    stripLineEndings (a ++ b) = stripLineEndings a ++ stripLineEndings b := by
  simp only [stripLineEndings, String.data_append, List.filter_append]
  rfl

/-- C6: when the expected body matcher is a string, a line-ending difference
between expected and actual is tolerated for a non-multipart content type,
but for a multipart content type the comparison is byte-exact and the same
difference is a non-match; equal strings always match. -/
theorem c6_string_body (ct1 ct2 s : String) (h1 : isMultipart ct1 = false)
    (h2 : isMultipart ct2 = true) :
    matchBodyString ct1 (s ++ "\n") (s ++ "\r\n") = true ∧
    matchBodyString ct2 (s ++ "\n") (s ++ "\r\n") = false ∧
    matchBodyString ct1 s s = true ∧
    matchBodyString ct2 s s = true := by
  have hne : s ++ "\n" ≠ s ++ "\r\n" := by
    intro hcontra
    have hlen := congrArg String.length hcontra
    rw [String.length_append, String.length_append,
      show ("\n" : String).length = 1 from rfl,
      show ("\r\n" : String).length = 2 from rfl] at hlen
    omega
  refine ⟨?_, ?_, ?_, ?_⟩
  · simp [matchBodyString, h1, stripLineEndings_append,
      show stripLineEndings "\n" = "" from rfl,
      show stripLineEndings "\r\n" = "" from rfl]
  · simp [matchBodyString, h2, hne]
  · simp [matchBodyString, h1]
  · simp [matchBodyString, h2]

/-- C6 witness: the statement at concrete content types and bodies. -/
theorem c6_string_body_witness :
    matchBodyString "text/plain" ("abc" ++ "\n") ("abc" ++ "\r\n") = true ∧
    matchBodyString "multipart/form-data;" ("abc" ++ "\n") ("abc" ++ "\r\n") =
      false ∧
    matchBodyString "text/plain" "abc" "abc" = true ∧
    matchBodyString "multipart/form-data;" "abc" "abc" = true :=
  c6_string_body "text/plain" "multipart/form-data;" "abc" (by decide) (by decide)

/-- C4: folding raw response header pairs groups by lower-cased name;
duplicate set-cookie values are collected into an array; a name in the
singleton-only set keeps its first value and drops later ones; duplicate
cookie values are joined with a semicolon separator; every other duplicate
name is joined with a comma separator, so the raw pairs X-A 1, X-A 2 are
observed as the single string value 1, 2 rather than an array. -/
theorem c4_header_folding (nameA nameB v1 v2 : String)
    (hA : noDuplicatesHeaders.contains (jsToLower nameA) = true)
    (hB : noDuplicatesHeaders.contains (jsToLower nameB) = false)
    (hBsc : (jsToLower nameB == "set-cookie") = false)
    (hBck : (jsToLower nameB == "cookie") = false) :
    headersArrayToObject
        [("X-A", HeaderInput.str "1"), ("X-A", HeaderInput.str "2")] =
      [("x-a", HeaderVal.str "1, 2")] ∧
    headersArrayToObject
        [("Set-Cookie", HeaderInput.str v1), ("set-cookie", HeaderInput.str v2)] =
      [("set-cookie", HeaderVal.arr [v1, v2])] ∧
    headersArrayToObject
        [(nameA, HeaderInput.str v1), (nameA, HeaderInput.str v2)] =
      [(jsToLower nameA, HeaderVal.str v1)] ∧
    headersArrayToObject
        [("Cookie", HeaderInput.str v1), ("cookie", HeaderInput.str v2)] =
      [("cookie", HeaderVal.str (v1 ++ "; " ++ v2))] ∧
    headersArrayToObject
        [(nameB, HeaderInput.str v1), (nameB, HeaderInput.str v2)] =
      [(jsToLower nameB, HeaderVal.str (v1 ++ ", " ++ v2))] := by
  have hAsc : (jsToLower nameA == "set-cookie") = false := by
    cases hbe : (jsToLower nameA == "set-cookie") with
    | false => rfl
    | true =>
      have heq : jsToLower nameA = "set-cookie" := eq_of_beq hbe
      rw [heq] at hA
      exact absurd hA (by decide)
  have hA2 : jsToLower nameA ∈ noDuplicatesHeaders := by simpa using hA
  have hAsc2 : jsToLower nameA ≠ "set-cookie" := by simpa using hAsc
  have hB2 : jsToLower nameB ∉ noDuplicatesHeaders := by simpa using hB
  have hBsc2 : jsToLower nameB ≠ "set-cookie" := by simpa using hBsc
  have hBck2 : jsToLower nameB ≠ "cookie" := by simpa using hBck
  refine ⟨by decide, rfl, ?_, rfl, ?_⟩
  · simp [headersArrayToObject, addHeaderLine, jsGet, jsSet, hA2, hAsc2,
      List.find?]
  · simp [headersArrayToObject, addHeaderLine, jsGet, jsSet, jsJoin, hB2,
      hBsc2, hBck2, List.find?]

/-- C4 witness: the statement at concrete header names and values. -/
theorem c4_header_folding_witness :
    headersArrayToObject
        [("Host", HeaderInput.str "1"), ("Host", HeaderInput.str "2")] =
      [(jsToLower "Host", HeaderVal.str "1")] ∧
    headersArrayToObject
        [("X-Custom", HeaderInput.str "1"), ("X-Custom", HeaderInput.str "2")] =
      [(jsToLower "X-Custom", HeaderVal.str ("1" ++ ", " ++ "2"))] := by
  have h := c4_header_folding "Host" "X-Custom" "1" "2" (by decide) (by decide)
    (by decide) (by decide)
  exact ⟨h.2.2.1, h.2.2.2.2⟩

/-- C7: when no interceptor matches and pass-through is disallowed, the
router emits a no-match error rather than dropping the request: its
statusCode and status fields are both 404 and its message carries the
attempted method and URL of the request (stated for methods and URLs that
JSON escaping leaves unchanged, which covers every real HTTP method and
URL). -/
theorem c7_no_match_error (options : ReqOptions) (body : String)
    (hm : jsonEscape (methodOf options) = methodOf options)
    (hu : jsonEscape (urlOf options) = urlOf options) :
    routeDecision false false options body =
      RouteOutcome.nomatch (noMatchError options body) ∧
    (noMatchError options body).statusCode = 404 ∧
    (noMatchError options body).status = 404 ∧
    (methodOf options).data <:+: (noMatchError options body).message.data ∧
    (urlOf options).data <:+: (noMatchError options body).message.data := by
  refine ⟨rfl, rfl, rfl, ?_, ?_⟩
  · refine ⟨("Nock: No match for request " ++ "\x7b\n  \"method\": " ++
        "\"").data,
      ("\"" ++ ",\n  \"url\": " ++ jsonQuote (urlOf options) ++
        ",\n  \"headers\": " ++ headersJson options.headers ++
        (if body == "" then "" else ",\n  \"body\": " ++ jsonQuote body) ++
        "\n\x7d").data, ?_⟩
    simp [noMatchError, stringifyRequest, jsonQuote, hm, String.data_append,
      List.append_assoc]
  · refine ⟨("Nock: No match for request " ++ "\x7b\n  \"method\": " ++
        jsonQuote (methodOf options) ++ ",\n  \"url\": " ++ "\"").data,
      ("\"" ++ ",\n  \"headers\": " ++ headersJson options.headers ++
        (if body == "" then "" else ",\n  \"body\": " ++ jsonQuote body) ++
        "\n\x7d").data, ?_⟩
    simp [noMatchError, stringifyRequest, jsonQuote, hu, String.data_append,
      List.append_assoc]

/-- C7 witness: the statement at a concrete request. -/
theorem c7_no_match_error_witness :
    routeDecision false false
        { method := some "POST", proto := "http", hostname := "example.test",
          port := some (JsPort.num 8080), path := some "/x",
          headers := [("cookie", "a=b")] } "hello" =
      RouteOutcome.nomatch
        (noMatchError
          { method := some "POST", proto := "http", hostname := "example.test",
            port := some (JsPort.num 8080), path := some "/x",
            headers := [("cookie", "a=b")] } "hello") ∧
    (noMatchError
        { method := some "POST", proto := "http", hostname := "example.test",
          port := some (JsPort.num 8080), path := some "/x",
          headers := [("cookie", "a=b")] } "hello").statusCode = 404 ∧
    (noMatchError
        { method := some "POST", proto := "http", hostname := "example.test",
          port := some (JsPort.num 8080), path := some "/x",
          headers := [("cookie", "a=b")] } "hello").status = 404 ∧
    (methodOf
        { method := some "POST", proto := "http", hostname := "example.test",
          port := some (JsPort.num 8080), path := some "/x",
          headers := [("cookie", "a=b")] }).data <:+:
      (noMatchError
        { method := some "POST", proto := "http", hostname := "example.test",
          port := some (JsPort.num 8080), path := some "/x",
          headers := [("cookie", "a=b")] } "hello").message.data ∧
    (urlOf
        { method := some "POST", proto := "http", hostname := "example.test",
          port := some (JsPort.num 8080), path := some "/x",
          headers := [("cookie", "a=b")] }).data <:+:
      (noMatchError
        { method := some "POST", proto := "http", hostname := "example.test",
          port := some (JsPort.num 8080), path := some "/x",
          headers := [("cookie", "a=b")] } "hello").message.data :=
  c7_no_match_error
    { method := some "POST", proto := "http", hostname := "example.test",
      port := some (JsPort.num 8080), path := some "/x",
      headers := [("cookie", "a=b")] } "hello" (by decide) (by decide)

/-- C10: when interception is globally off, Scope.isDone returns true no
matter which interceptors are still pending; when interception is on,
Scope.isDone returns true exactly when pendingMocks is empty. -/
theorem c10_isDone (s : Scope) :
    Scope.isDone false s = true ∧
    (Scope.isDone true s = true ↔ s.pendingMocks = []) := by
  refine ⟨rfl, ?_⟩
  simp [Scope.isDone, List.length_eq_zero]

end Nock
